import Mathlib

/-!
# Shallow embedding of the x402-hedera payment core

This file embeds, in Lean 4, the network registry, the Hedera "exact"
scheme's client-side payment builder, the facilitator-side verifier and
settler, and the family dispatcher of the x402-hedera repository, and
proves properties of them.

Sources embedded:
* `src/typescript/packages/x402/src/types/shared/network.ts`
  (network tables, `getNetworkFamily`)
* `src/typescript/packages/x402/src/schemes/exact/hedera/client.ts`
  (`createPaymentHeader`, `createAndSignPayment`, `createTransferTransaction`,
  `createHbarTransferTransaction`, `createTokenTransferTransaction`,
  `isHbarAddress`)
* `src/typescript/packages/x402/src/schemes/exact/hedera/facilitator/verify.ts`
  (`verify`, `verifySchemesAndNetworks`, `transactionIntrospection`,
  `isHbarTransfer`, `validateHbarTransfer`, `validateTokenTransfer`)
* `src/typescript/packages/x402/src/schemes/exact/hedera/facilitator/settle.ts`
  (`settle`, `executeTransaction`, `waitForTransactionWithTimeout`)
* `src/typescript/packages/x402/src/facilitator/facilitator.ts`
  (the dispatcher-level `verify` and `settle`)

JavaScript strings are embedded as `String`, thrown exceptions as
`Except String`, `undefined`/absent optional fields as `Option`, and the
ledger (reached through the Hedera SDK's `execute`/`getReceipt`) as an
explicit outcome value passed to the settler.
-/

namespace X402

/-! ## Network registry (types/shared/network.ts) -/

/-- The `NetworkSchema` enum: every network identifier of the static table. -/
def NetworkSchemaList : List String :=
  ["base-sepolia", "base", "avalanche-fuji", "avalanche", "iotex",
   "solana-devnet", "solana", "sei", "sei-testnet", "polygon",
   "polygon-amoy", "peaq", "hedera-testnet", "hedera-mainnet"]

/-- Embedding of `SupportedEVMNetworks` from network.ts. -/
def SupportedEVMNetworks : List String :=
  ["base-sepolia", "base", "avalanche-fuji", "avalanche", "iotex",
   "sei", "sei-testnet", "polygon", "polygon-amoy", "peaq"]

/-- Embedding of `SupportedSVMNetworks` from network.ts. -/
def SupportedSVMNetworks : List String := ["solana-devnet", "solana"]

/-- Embedding of `SupportedHederaNetworks` from network.ts. -/
def SupportedHederaNetworks : List String := ["hedera-testnet", "hedera-mainnet"]

/-- The `NetworkFamily` union type. -/
inductive NetworkFamily where
  | evm : NetworkFamily
  | svm : NetworkFamily
  | hedera : NetworkFamily
deriving DecidableEq, Repr, Fintype

/-- The per-family network table, for stating uniqueness of classification. -/
def familyNetworks : NetworkFamily → List String
  | .evm => SupportedEVMNetworks
  | .svm => SupportedSVMNetworks
  | .hedera => SupportedHederaNetworks

/-- Embedding of `getNetworkFamily` from network.ts: membership tests against the three
family tables in order; an identifier in none of them throws
`Unsupported network: ...` (embedded as `Except.error`). -/
def getNetworkFamily (network : String) : Except String NetworkFamily :=
  if network ∈ SupportedEVMNetworks then .ok .evm
  else if network ∈ SupportedSVMNetworks then .ok .svm
  else if network ∈ SupportedHederaNetworks then .ok .hedera
  else .error ("Unsupported network: " ++ network)

/-! ## Native-vs-asset branch predicates -/

/-- JavaScript `String.prototype.toLowerCase`, on the character list
(ASCII case mapping, which covers every string the repository
compares). -/
def toLowerJS (s : String) : String := String.mk (s.data.map Char.toLower)

/-- Embedding of `isHbarTransfer` from facilitator/verify.ts:
`asset === "0.0.0" || asset.toLowerCase() === "hbar"`. -/
def isHbarTransfer (asset : String) : Bool :=
  asset == "0.0.0" || toLowerJS asset == "hbar"

/-- Embedding of `isHbarAddress` from hedera/client.ts:
`asset === "0.0.0" || asset.toLowerCase() === "hbar"`. -/
def isHbarAddress (asset : String) : Bool :=
  asset == "0.0.0" || toLowerJS asset == "hbar"

/-! ## Hedera data model

The Hedera SDK's entity-id and transaction types are embedded
structurally: a `TransactionId` by the account identifier it embeds
(the `validStart` timestamp plays no role in the embedded code paths),
a `TransferTransaction` by its transfer legs, and an arbitrary decoded
`Transaction` by a sum distinguishing transfer transactions from every
other instruction type.  A JavaScript `number` that may be `NaN`
(from `parseInt` on a non-numeric string) is `Option Int`, `none` for
`NaN`. -/

/-- The SDK's `TransactionId`, restricted to the data the code inspects:
`transactionId.accountId` may be absent (`null`). -/
structure TransactionIdM where
  accountId : Option String
deriving DecidableEq, Repr

/-- The SDK's `TransferTransaction`: its id and its HBAR / token transfer
legs.  An HBAR leg is (account, tinybar amount); a token leg is
(token, account, amount). -/
structure TransferTransactionM where
  transactionId : Option TransactionIdM
  hbarTransfers : List (String × Option Int)
  tokenTransfers : List (String × String × Option Int)
deriving DecidableEq, Repr

/-- A decoded Hedera `Transaction`: either a `TransferTransaction` or any
other instruction type the payer could have substituted. -/
inductive HederaTransaction where
  | transfer : TransferTransactionM → HederaTransaction
  | other : HederaTransaction
deriving DecidableEq, Repr

/-- The `PaymentPayload` as the Hedera scheme sees it.  The family-specific
opaque payload (base64 of serialized transaction bytes) is embedded by its
decode result: `some tx` when `deserializeTransaction` succeeds and yields
`tx`, `none` when `Transaction.fromBytes` throws on the bytes. -/
structure PaymentPayloadM where
  scheme : String
  network : String
  x402Version : Nat
  transaction : Option HederaTransaction
deriving DecidableEq, Repr

/-- Embedding of `PaymentRequirements`, restricted to the fields the embedded code
reads.  `feePayer` is `requirements.extra?.feePayer`: `none` models an
absent `extra` bag or an absent field (both `undefined` in the source),
`some ""` an empty string (also falsy where the source tests it). -/
structure PaymentRequirementsM where
  scheme : String
  network : String
  payTo : String
  asset : String
  maxAmountRequired : String
  feePayer : Option String
deriving DecidableEq, Repr

/-- Embedding of `VerifyResponse`: `invalidReason`/`payer` are optional fields. -/
structure VerifyResponseM where
  isValid : Bool
  invalidReason : Option String
  payer : Option String
deriving DecidableEq, Repr

/-- Embedding of `SettleResponse`. `payer` is optional (the failure paths of the Hedera
settler omit it); `transaction` is the ledger transaction identifier or
the empty string. -/
structure SettleResponseM where
  success : Bool
  errorReason : Option String
  payer : Option String
  transaction : String
  network : String
deriving DecidableEq, Repr

/-- Modelled from the spec: the `ErrorReasons` enumeration of
`src/types/verify` is not among the provided sources (only its callers
are).  Per the spec's error taxonomy (§7) and the reason strings the
Hedera verifier and settler produce as members of that enumeration, it
contains the structural, authorization, economic, settlement and
catch-all reason strings used by the embedded code. -/
def ErrorReasons : List String :=
  ["unsupported_scheme", "invalid_network", "invalid_scheme",
   "invalid_exact_hedera_payload_transaction",
   "invalid_exact_hedera_payload_transaction_signature",
   "invalid_exact_hedera_payload_transaction_asset_mismatch",
   "invalid_exact_hedera_payload_transaction_insufficient_balance",
   "settle_exact_hedera_transaction_failed",
   "settle_exact_hedera_transaction_confirmation_timeout",
   "unexpected_verify_error", "unexpected_settle_error"]

/-- Embedding of `SCHEME` for the exact scheme. -/
def SCHEME : String := "exact"

/-- Split a character list at every `'.'`. -/
def splitDots (l : List Char) : List (List Char) :=
  l.foldr
    (fun ch acc =>
      if ch = '.' then [] :: acc
      else
        match acc with
        | [] => [[ch]]
        | h :: t => (ch :: h) :: t)
    [[]]

/-- Model of the SDK's `shard.realm.num` entity-id grammar, shared by
`AccountId.fromString` and `TokenId.fromString`: three dot-separated
non-empty decimal components (the SDK's optional checksum suffix is not
exercised by this repository).  Parse failures in the source throw; the
embedding branches on this predicate. -/
def isValidEntityId (s : String) : Bool :=
  match splitDots s.data with
  | [a, b, c] => !a.isEmpty && a.all Char.isDigit
      && !b.isEmpty && b.all Char.isDigit
      && !c.isEmpty && c.all Char.isDigit
  | _ => false

/-! ## Facilitator verifier (facilitator/verify.ts)

The verifier's thrown `Error`s are embedded as `Except.error` carrying
the error message; the top-level `catch` of `verify` maps messages that
are members of `ErrorReasons` to `invalidReason` and everything else to
`unexpected_verify_error`. -/

/-- Embedding of `verifySchemesAndNetworks` from verify.ts. -/
def verifySchemesAndNetworks (payload : PaymentPayloadM)
    (paymentRequirements : PaymentRequirementsM) : Except String Unit :=
  if payload.scheme != SCHEME || paymentRequirements.scheme != SCHEME then
    .error "unsupported_scheme"
  else if payload.network != paymentRequirements.network
      || !(decide (paymentRequirements.network ∈ SupportedHederaNetworks)) then
    .error "invalid_network"
  else
    .ok ()

/-- Embedding of `validateHbarTransfer` from verify.ts: only the asset-class
consistency of `paymentRequirements.asset` is checked; the transaction's
transfer legs are not inspected. -/
def validateHbarTransfer (_transaction : TransferTransactionM)
    (paymentRequirements : PaymentRequirementsM) : Except String Unit :=
  if !(isHbarTransfer paymentRequirements.asset) then
    .error "invalid_exact_hedera_payload_transaction_asset_mismatch"
  else
    .ok ()

/-- Embedding of `validateTokenTransfer` from verify.ts: the asset must not be HBAR and
must parse as a `TokenId`; the transaction's transfer legs are not
inspected. -/
def validateTokenTransfer (_transaction : TransferTransactionM)
    (paymentRequirements : PaymentRequirementsM) : Except String Unit :=
  if isHbarTransfer paymentRequirements.asset then
    .error "invalid_exact_hedera_payload_transaction_asset_mismatch"
  else if !(isValidEntityId paymentRequirements.asset) then
    .error "invalid_exact_hedera_payload_transaction_asset_mismatch"
  else
    .ok ()

/-- Embedding of `transactionIntrospection` from verify.ts.  (The source also
round-trips the transaction through `toBytes`/`fromBytes` into an unused
local; that has no observable effect and is not represented.) -/
def transactionIntrospection (signerAccountId : String)
    (transaction : HederaTransaction)
    (paymentRequirements : PaymentRequirementsM) : Except String Unit :=
  match transaction with
  | .other => .error "invalid_exact_hedera_payload_transaction"
  | .transfer t =>
    match t.transactionId with
    | none => .error "invalid_exact_hedera_payload_transaction"
    | some tid =>
      match tid.accountId with
      | none => .error "invalid_exact_hedera_payload_transaction_signature"
      | some transactionAccountId =>
        if transactionAccountId != signerAccountId then
          .error "invalid_exact_hedera_payload_transaction_signature"
        else
          match paymentRequirements.feePayer with
          | none => .error "invalid_exact_hedera_payload_transaction_signature"
          | some expectedFacilitatorId =>
            if expectedFacilitatorId == ""
                || expectedFacilitatorId != signerAccountId then
              .error "invalid_exact_hedera_payload_transaction_signature"
            else if isHbarTransfer paymentRequirements.asset then
              validateHbarTransfer t paymentRequirements
            else
              validateTokenTransfer t paymentRequirements

/-- Embedding of `verify` from facilitator/verify.ts.  `deserializeTransaction` on
undecodable bytes throws an SDK error whose message is not a member of
`ErrorReasons`, so the catch maps it to `unexpected_verify_error`. -/
def verify (signerAccountId : String) (payload : PaymentPayloadM)
    (paymentRequirements : PaymentRequirementsM) : VerifyResponseM :=
  let run : Except String Unit :=
    match verifySchemesAndNetworks payload paymentRequirements with
    | .error e => .error e
    | .ok _ =>
      match payload.transaction with
      | none => .error "hashgraph sdk deserialization failure"
      | some transaction =>
          transactionIntrospection signerAccountId transaction paymentRequirements
  match run with
  | .ok _ => { isValid := true, invalidReason := none, payer := none }
  | .error msg =>
    if msg ∈ ErrorReasons then
      { isValid := false, invalidReason := some msg, payer := none }
    else
      { isValid := false, invalidReason := some "unexpected_verify_error", payer := none }

/-! ## Facilitator settler (facilitator/settle.ts)

The ledger, reached through the SDK's `execute` and `getReceipt`, is
embedded as an explicit `SubmissionOutcome` argument: either the
submission (or the receipt wait) rejects with an error message, or a
receipt eventually resolves — after `afterMs` milliseconds of waiting —
carrying the response's transaction identifier and the receipt status.
`executeTransaction` in the source awaits
`transactionResponse.getReceipt(signer.client)` directly, so the
resolution delay `afterMs` is data the code never consults. -/

/-- The outcome of `signedTransaction.execute` + `getReceipt` for one
submission. -/
inductive SubmissionOutcome where
  | rejects : String → SubmissionOutcome
  | receipt : (afterMs : Nat) → (responseTransactionId : String) →
      (statusIsSuccess : Bool) → SubmissionOutcome
deriving DecidableEq, Repr

/-- Does `p` occur as a prefix of `l`? -/
def isPrefixCh : List Char → List Char → Bool
  | [], _ => true
  | _ :: _, [] => false
  | p :: ps, c :: cs => p == c && isPrefixCh ps cs

/-- Does `pat` occur as a contiguous sublist of `l`? -/
def containsSub : List Char → List Char → Bool
  | [], pat => pat.isEmpty
  | c :: rest, pat => isPrefixCh pat (c :: rest) || containsSub rest pat

/-- JavaScript `String.prototype.includes`: substring containment. -/
def includesJS (s pat : String) : Bool :=
  containsSub s.data pat.data

/-- The record returned by `executeTransaction`. -/
structure ExecuteResultM where
  success : Bool
  errorReason : Option String
  transactionId : String
deriving DecidableEq, Repr

/-- Embedding of `executeTransaction` from settle.ts: add the facilitator signature,
submit, await the receipt (with no bound on the wait), and map errors by
message content. -/
def executeTransaction (outcome : SubmissionOutcome) : ExecuteResultM :=
  match outcome with
  | .receipt _afterMs responseTransactionId statusIsSuccess =>
    if statusIsSuccess then
      { success := true, errorReason := none, transactionId := responseTransactionId }
    else
      { success := false,
        errorReason := some "settle_exact_hedera_transaction_failed",
        transactionId := responseTransactionId }
  | .rejects msg =>
    if includesJS msg "INSUFFICIENT_ACCOUNT_BALANCE" then
      { success := false,
        errorReason := some "invalid_exact_hedera_payload_transaction_insufficient_balance",
        transactionId := "" }
    else if includesJS msg "timeout" || includesJS msg "TIMEOUT" then
      { success := false,
        errorReason := some "settle_exact_hedera_transaction_confirmation_timeout",
        transactionId := "" }
    else
      { success := false,
        errorReason := some "settle_exact_hedera_transaction_failed",
        transactionId := "" }

/-- Embedding of `waitForTransactionWithTimeout` from settle.ts: a race between the
receipt promise and a timer of `timeoutMs` milliseconds (30000 in the
source's default).  A receipt resolving strictly before the timer wins;
otherwise the race rejects with `Transaction confirmation timeout`.
No caller of this function exists in the repository. -/
def waitForTransactionWithTimeout (outcome : SubmissionOutcome)
    (timeoutMs : Nat) : Except String Bool :=
  match outcome with
  | .rejects msg => .error msg
  | .receipt afterMs _ statusIsSuccess =>
    if afterMs < timeoutMs then .ok statusIsSuccess
    else .error "Transaction confirmation timeout"

/-- Embedding of `settle` from facilitator/settle.ts, paired with a `Bool` recording
whether the facilitator signed and submitted the transaction to the
ledger (`true` exactly when `executeTransaction` ran). -/
def settle (signerAccountId : String) (payload : PaymentPayloadM)
    (paymentRequirements : PaymentRequirementsM)
    (outcome : SubmissionOutcome) : SettleResponseM × Bool :=
  let verifyResponse := verify signerAccountId payload paymentRequirements
  if !verifyResponse.isValid then
    ({ success := false, errorReason := verifyResponse.invalidReason,
       payer := none, network := payload.network, transaction := "" }, false)
  else
    let payer := signerAccountId
    let r := executeTransaction outcome
    ({ success := r.success, errorReason := r.errorReason,
       payer := some payer, transaction := r.transactionId,
       network := payload.network }, true)

/-! ## Client-side builder (hedera/client.ts) -/

/-- JavaScript `parseInt` (no radix argument) on base-10 input: skip
leading whitespace, read an optional sign, then the longest prefix of
decimal digits; no digits means `NaN` (`none`).  (The automatic
hexadecimal radix for `0x`-prefixed input is not represented; no
caller passes such strings.)  The result is modelled exactly rather
than with the 53-bit float precision of a JavaScript number. -/
def parseIntJS (s : String) : Option Int :=
  let cs := s.toList.dropWhile Char.isWhitespace
  let core : List Char → Option Nat := fun l =>
    let ds := l.takeWhile Char.isDigit
    if ds.isEmpty then none
    else some (ds.foldl (fun a c => a * 10 + (c.toNat - 48)) 0)
  match cs with
  | '-' :: rest => (core rest).map (fun n => -(n : Int))
  | '+' :: rest => (core rest).map (fun n => (n : Int))
  | _ => (core cs).map (fun n => (n : Int))

/-- The tinybar value the SDK ends up holding for one HBAR leg of the
builder.  The debit leg negates the amount string numerically
(`-amount`), the credit leg hands the string to `Hbar.fromTinybars`;
both are modelled for optionally-signed integer numerals, with `none`
standing for every other string (NaN / non-integral values, which no
theorem below inspects). -/
def toNumberJS (s : String) : Option Int :=
  let t : List Char :=
    ((s.data.dropWhile Char.isWhitespace).reverse.dropWhile
      Char.isWhitespace).reverse
  if t.isEmpty then some 0
  else
    match t with
    | '-' :: rest =>
      if !rest.isEmpty && rest.all Char.isDigit then
        some (-(rest.foldl (fun a c => a * 10 + (c.toNat - 48)) 0 : Int))
      else none
    | '+' :: rest =>
      if !rest.isEmpty && rest.all Char.isDigit then
        some ((rest.foldl (fun a c => a * 10 + (c.toNat - 48)) 0 : Nat) : Int)
      else none
    | l =>
      if !l.isEmpty && l.all Char.isDigit then
        some ((l.foldl (fun a c => a * 10 + (c.toNat - 48)) 0 : Nat) : Int)
      else none

/-- Embedding of `createHbarTransferTransaction` from client.ts:
`TransactionId.generate(facilitatorAccountId)` embeds the facilitator
account in the transaction id; the two HBAR legs are debit(payer) /
credit(payee). -/
def createHbarTransferTransaction (clientAccountId : String)
    (facilitatorAccountId : String)
    (paymentRequirements : PaymentRequirementsM) :
    Except String TransferTransactionM :=
  if !(isValidEntityId paymentRequirements.payTo) then
    .error "failed to parse entity id: payTo"
  else
    .ok { transactionId := some { accountId := some facilitatorAccountId },
          hbarTransfers :=
            [(clientAccountId, (toNumberJS paymentRequirements.maxAmountRequired).map Int.neg),
             (paymentRequirements.payTo, toNumberJS paymentRequirements.maxAmountRequired)],
          tokenTransfers := [] }

/-- Embedding of `createTokenTransferTransaction` from client.ts: both token legs are
built from `parseInt(amount)`, negated for the debit leg. -/
def createTokenTransferTransaction (clientAccountId : String)
    (facilitatorAccountId : String)
    (paymentRequirements : PaymentRequirementsM) :
    Except String TransferTransactionM :=
  if !(isValidEntityId paymentRequirements.payTo) then
    .error "failed to parse entity id: payTo"
  else if !(isValidEntityId paymentRequirements.asset) then
    .error "failed to parse entity id: asset"
  else
    .ok { transactionId := some { accountId := some facilitatorAccountId },
          hbarTransfers := [],
          tokenTransfers :=
            [(paymentRequirements.asset, clientAccountId,
              (parseIntJS paymentRequirements.maxAmountRequired).map (fun n => -n)),
             (paymentRequirements.asset, paymentRequirements.payTo,
              parseIntJS paymentRequirements.maxAmountRequired)] }

/-- Embedding of `createTransferTransaction` from client.ts: a falsy
`requirements.extra?.feePayer` is a hard error before anything else;
then `AccountId.fromString(feePayer)`, then the native-vs-asset branch. -/
def createTransferTransaction (clientAccountId : String)
    (paymentRequirements : PaymentRequirementsM) :
    Except String TransferTransactionM :=
  let feePayerFalsy := match paymentRequirements.feePayer with
    | none => true
    | some s => s == ""
  if feePayerFalsy then
    .error "feePayer is required in paymentRequirements.extra"
  else
    match paymentRequirements.feePayer with
    | none => .error "feePayer is required in paymentRequirements.extra"
    | some facilitatorAccountIdStr =>
      if !(isValidEntityId facilitatorAccountIdStr) then
        .error "failed to parse entity id: feePayer"
      else if isHbarAddress paymentRequirements.asset then
        createHbarTransferTransaction clientAccountId facilitatorAccountIdStr
          paymentRequirements
      else
        createTokenTransferTransaction clientAccountId facilitatorAccountIdStr
          paymentRequirements

/-- Embedding of `createAndSignPayment` from client.ts, paired with a count of client
signing operations performed (`transaction.sign(client.privateKey)` runs
exactly once, and only after `createTransferTransaction` succeeded).
The payload's opaque field holds the serialize/deserialize image of the
signed transaction; signatures are not part of the structural model. -/
def createAndSignPayment (clientAccountId : String) (x402Version : Nat)
    (paymentRequirements : PaymentRequirementsM) :
    Except String PaymentPayloadM × Nat :=
  match createTransferTransaction clientAccountId paymentRequirements with
  | .error e => (.error e, 0)
  | .ok transaction =>
    (.ok { scheme := paymentRequirements.scheme,
           network := paymentRequirements.network,
           x402Version := x402Version,
           transaction := some (.transfer transaction) }, 1)

/-- Embedding of `createPaymentHeader` from client.ts: encode the payload produced by
`createAndSignPayment` (the codec is the parameter `encodePayment`);
failures of `createAndSignPayment` propagate.  Paired with the same
signing-operation count. -/
def createPaymentHeader (encodePayment : PaymentPayloadM → String)
    (clientAccountId : String) (x402Version : Nat)
    (paymentRequirements : PaymentRequirementsM) :
    Except String String × Nat :=
  match createAndSignPayment clientAccountId x402Version paymentRequirements with
  | (.error e, n) => (.error e, n)
  | (.ok paymentPayload, n) => (.ok (encodePayment paymentPayload), n)

/-! ## Dispatcher (facilitator.ts `verify` / `settle`)

The EVM and SVM verifiers/settlers are outside the Hedera scheme and are
parameters of the embedding; the dispatcher consults them only after the
network classified into their family.  A thrown exception escaping the
entry point is `Except.error`.  `authorizationFrom` embeds the
`authorization` object of `(payload.payload as ExactEvmPayload)`:
`some s` when the opaque payload carries an EVM authorization object
whose `from` field is `s`, `none` when it carries no such object (for
instance a Hedera `{transaction}` payload), in which case the fallback's
property access `.authorization.from` throws a TypeError. -/

/-- The `payer` computation of the `invalid_scheme` fallback responses:
`SupportedEVMNetworks.includes(paymentRequirements.network) ?
(payload.payload as ExactEvmPayload).authorization.from : ""`.  On an
EVM network with no authorization object in the payload, reading `from`
of `undefined` throws. -/
def evmFallbackPayer (network : String) (authorizationFrom : Option String) :
    Except String String :=
  if network ∈ SupportedEVMNetworks then
    match authorizationFrom with
    | none =>
      .error "TypeError: Cannot read properties of undefined (reading 'from')"
    | some s => .ok s
  else .ok ""

/-- The dispatcher-level `verify`. -/
def dispatcherVerify
    (evmVerify svmVerify : PaymentPayloadM → PaymentRequirementsM → VerifyResponseM)
    (hederaSignerAccountId : String)
    (payload : PaymentPayloadM) (paymentRequirements : PaymentRequirementsM)
    (authorizationFrom : Option String) : Except String VerifyResponseM :=
  if paymentRequirements.scheme == "exact" then
    match getNetworkFamily paymentRequirements.network with
    | .error msg => .error msg
    | .ok .evm => .ok (evmVerify payload paymentRequirements)
    | .ok .svm => .ok (svmVerify payload paymentRequirements)
    | .ok .hedera => .ok (verify hederaSignerAccountId payload paymentRequirements)
  else
    match evmFallbackPayer paymentRequirements.network authorizationFrom with
    | .error msg => .error msg
    | .ok p =>
      .ok { isValid := false, invalidReason := some "invalid_scheme",
            payer := some p }

/-- The dispatcher-level `settle`. -/
def dispatcherSettle
    (evmSettle svmSettle : PaymentPayloadM → PaymentRequirementsM → SettleResponseM)
    (hederaSignerAccountId : String)
    (payload : PaymentPayloadM) (paymentRequirements : PaymentRequirementsM)
    (authorizationFrom : Option String) (outcome : SubmissionOutcome) :
    Except String SettleResponseM :=
  if paymentRequirements.scheme == "exact" then
    match getNetworkFamily paymentRequirements.network with
    | .error msg => .error msg
    | .ok .evm => .ok (evmSettle payload paymentRequirements)
    | .ok .svm => .ok (svmSettle payload paymentRequirements)
    | .ok .hedera =>
      .ok (settle hederaSignerAccountId payload paymentRequirements outcome).1
  else
    match evmFallbackPayer paymentRequirements.network authorizationFrom with
    | .error msg => .error msg
    | .ok p =>
      .ok { success := false, errorReason := some "invalid_scheme",
            transaction := "", network := paymentRequirements.network,
            payer := some p }

end X402

/-! ## Theorems -/

namespace X402

/-- Claim C6: the Builder's `isHbarAddress` and the Verifier's
`isHbarTransfer` are the same predicate: for every asset string both
evaluate to the native branch exactly when the asset equals `0.0.0` or
case-insensitively equals `hbar`, and to the asset branch otherwise. -/
theorem builder_and_verifier_hbar_predicates_agree :
    ∀ asset : String,
      isHbarTransfer asset = isHbarAddress asset ∧
      (isHbarTransfer asset = true ↔ asset = "0.0.0" ∨ toLowerJS asset = "hbar") := by
  intro asset
  refine ⟨rfl, ?_⟩
  simp [isHbarTransfer]

/-- Claim C8: the network-family classifier is total on the static
network table, assigns every supported network to exactly one of the
three families (no network is claimed by two family tables), and fails
with a hard `Unsupported network` error on every identifier outside the
table, never returning a default family. -/
theorem network_family_classifier_total_unique_and_strict :
    (∀ n ∈ NetworkSchemaList, ∃ f, getNetworkFamily n = Except.ok f ∧
      n ∈ familyNetworks f ∧ ∀ g, n ∈ familyNetworks g → g = f) ∧
    (∀ s : String, s ∉ NetworkSchemaList →
      getNetworkFamily s = Except.error ("Unsupported network: " ++ s)) := by
  constructor
  · intro n hn
    fin_cases hn <;>
      exact ⟨_, rfl, by decide, by intro g; cases g <;> decide⟩
  · intro s hs
    have h1 : s ∉ SupportedEVMNetworks := by
      intro h; exact hs (by fin_cases h <;> decide)
    have h2 : s ∉ SupportedSVMNetworks := by
      intro h; exact hs (by fin_cases h <;> decide)
    have h3 : s ∉ SupportedHederaNetworks := by
      intro h; exact hs (by fin_cases h <;> decide)
    simp [getNetworkFamily, h1, h2, h3]

/-- Witness: the classifier applied to a concrete unknown identifier. -/
theorem network_family_classifier_witness :
    getNetworkFamily "acme-chain" = Except.error "Unsupported network: acme-chain" :=
  network_family_classifier_total_unique_and_strict.2 "acme-chain" (by decide)



/-- On a transfer transaction whose id embeds account `a`, with
`extra.feePayer = fp`, the introspection reaches the asset branch exactly
when `a`, `fp` and the facilitator signer account all agree (and `fp` is
not the empty string); otherwise it throws the signature-mismatch
reason. -/
theorem transactionIntrospection_transfer_characterization
    (signerAccountId : String) (t : TransferTransactionM)
    (req : PaymentRequirementsM) (a fp : String)
    (hid : t.transactionId = some { accountId := some a })
    (hfp : req.feePayer = some fp) :
    transactionIntrospection signerAccountId (.transfer t) req =
      (if a = signerAccountId ∧ fp = signerAccountId ∧ fp ≠ "" then
        (if isHbarTransfer req.asset then validateHbarTransfer t req
         else validateTokenTransfer t req)
      else
        .error "invalid_exact_hedera_payload_transaction_signature") := by
  simp only [transactionIntrospection, hid, hfp]
  by_cases ha : a = signerAccountId
  · subst ha
    by_cases hb : fp = a
    · subst hb
      by_cases hc : fp = ""
      · subst hc
        simp
      · simp [hc]
    · simp [hb]
  · simp [ha]



/-- Under passing scheme/network checks and a decodable payload, `verify`
is determined by `transactionIntrospection`. -/
theorem verify_eq_introspection (signerAccountId : String)
    (payload : PaymentPayloadM) (req : PaymentRequirementsM)
    (tx : HederaTransaction)
    (hps : payload.scheme = "exact") (hrs : req.scheme = "exact")
    (hnet : payload.network = req.network)
    (hhed : req.network ∈ SupportedHederaNetworks)
    (htx : payload.transaction = some tx) :
    verify signerAccountId payload req =
      match transactionIntrospection signerAccountId tx req with
      | .ok _ => { isValid := true, invalidReason := none, payer := none }
      | .error msg =>
        if msg ∈ ErrorReasons then
          { isValid := false, invalidReason := some msg, payer := none }
        else
          { isValid := false, invalidReason := some "unexpected_verify_error", payer := none } := by
  have hsn : verifySchemesAndNetworks payload req = .ok () := by
    simp [verifySchemesAndNetworks, SCHEME, hps, hrs, hnet, hhed]
  simp only [verify, hsn, htx]



/-- Claim C1: once scheme/network checks pass and the payload decodes to
a transfer transaction embedding fee-payer account `a`, with
`requirements.extra.feePayer = fp`, verify rejects with the
fee-payer/signature mismatch reason whenever `a` differs from `fp` or
from the facilitator signer's account — for every transfer-leg content
and asset, i.e. regardless of amount and asset correctness — and a run
that does not produce that reason has all three identifiers equal. -/
theorem verify_rejects_embedded_fee_payer_mismatch
    (signerAccountId : String) (payload : PaymentPayloadM)
    (req : PaymentRequirementsM) (t : TransferTransactionM) (a fp : String)
    (hps : payload.scheme = "exact") (hrs : req.scheme = "exact")
    (hnet : payload.network = req.network)
    (hhed : req.network ∈ SupportedHederaNetworks)
    (htx : payload.transaction = some (.transfer t))
    (hid : t.transactionId = some { accountId := some a })
    (hfp : req.feePayer = some fp) :
    ((a ≠ fp ∨ a ≠ signerAccountId) →
      verify signerAccountId payload req =
        { isValid := false,
          invalidReason := some "invalid_exact_hedera_payload_transaction_signature",
          payer := none }) ∧
    ((verify signerAccountId payload req).invalidReason ≠
        some "invalid_exact_hedera_payload_transaction_signature" →
      a = fp ∧ a = signerAccountId ∧ fp = signerAccountId) := by
  have hv := verify_eq_introspection signerAccountId payload req _ hps hrs hnet hhed htx
  rw [transactionIntrospection_transfer_characterization signerAccountId t req a fp hid hfp] at hv
  constructor
  · intro hmis
    have hcond : ¬(a = signerAccountId ∧ fp = signerAccountId ∧ fp ≠ "") := by
      rcases hmis with h | h
      · rintro ⟨h1, h2, _⟩; exact h (h1.trans h2.symm)
      · rintro ⟨h1, _, _⟩; exact h h1
    rw [if_neg hcond] at hv
    dsimp only at hv
    rw [if_pos (by decide)] at hv
    exact hv
  · intro hne
    by_cases hcond : a = signerAccountId ∧ fp = signerAccountId ∧ fp ≠ ""
    · exact ⟨hcond.1.trans hcond.2.1.symm, hcond.1, hcond.2.1⟩
    · exfalso
      rw [if_neg hcond] at hv
      dsimp only at hv
      rw [if_pos (by decide)] at hv
      rw [hv] at hne
      exact hne rfl

/-- Witness: a concrete transfer whose embedded fee payer `0.0.7` agrees
with `extra.feePayer` but not with the facilitator signer `0.0.99`. -/
theorem verify_rejects_embedded_fee_payer_mismatch_witness :
    verify "0.0.99"
      { scheme := "exact", network := "hedera-testnet", x402Version := 1,
        transaction := some (.transfer
          { transactionId := some { accountId := some "0.0.7" },
            hbarTransfers := [("0.0.5", some (-50)), ("0.0.6", some 50)],
            tokenTransfers := [] }) }
      { scheme := "exact", network := "hedera-testnet", payTo := "0.0.6",
        asset := "hbar", maxAmountRequired := "50", feePayer := some "0.0.7" } =
      { isValid := false,
        invalidReason := some "invalid_exact_hedera_payload_transaction_signature",
        payer := none } :=
  (verify_rejects_embedded_fee_payer_mismatch "0.0.99" _ _ _ "0.0.7" "0.0.7"
    rfl rfl rfl (by decide) rfl rfl rfl).1 (Or.inr (by decide))

/-- Claim C3: for an HBAR (native) asset requirement, once the
scheme/network checks, the transfer-transaction type check and the
fee-payer identity checks pass, verify returns `isValid := true` for
every transaction: the transfer legs (`hbarTransfers`,
`tokenTransfers`) and the requirements' `maxAmountRequired` and `payTo`
are universally quantified here and never compared. -/
theorem verify_hbar_ignores_amounts_and_recipient
    (signerAccountId : String) (payload : PaymentPayloadM)
    (req : PaymentRequirementsM) (t : TransferTransactionM)
    (hps : payload.scheme = "exact") (hrs : req.scheme = "exact")
    (hnet : payload.network = req.network)
    (hhed : req.network ∈ SupportedHederaNetworks)
    (htx : payload.transaction = some (.transfer t))
    (hid : t.transactionId = some { accountId := some signerAccountId })
    (hfp : req.feePayer = some signerAccountId)
    (hne : signerAccountId ≠ "")
    (hasset : isHbarTransfer req.asset = true) :
    verify signerAccountId payload req =
      { isValid := true, invalidReason := none, payer := none } := by
  have hv := verify_eq_introspection signerAccountId payload req _ hps hrs hnet hhed htx
  rw [transactionIntrospection_transfer_characterization signerAccountId t req
    signerAccountId signerAccountId hid hfp] at hv
  rw [if_pos ⟨rfl, rfl, hne⟩] at hv
  rw [if_pos hasset] at hv
  rw [show validateHbarTransfer t req = .ok () by simp [validateHbarTransfer, hasset]] at hv
  exact hv

/-- Witness: a concrete HBAR payload whose legs move 999999 tinybars to
`0.0.444` — neither matching the requirements — still verifies. -/
theorem verify_hbar_ignores_amounts_and_recipient_witness :
    verify "0.0.7"
      { scheme := "exact", network := "hedera-testnet", x402Version := 1,
        transaction := some (.transfer
          { transactionId := some { accountId := some "0.0.7" },
            hbarTransfers := [("0.0.5", some (-999999)), ("0.0.444", some 999999)],
            tokenTransfers := [] }) }
      { scheme := "exact", network := "hedera-testnet", payTo := "0.0.6",
        asset := "hbar", maxAmountRequired := "50", feePayer := some "0.0.7" } =
      { isValid := true, invalidReason := none, payer := none } :=
  verify_hbar_ignores_amounts_and_recipient "0.0.7" _ _ _
    rfl rfl rfl (by decide) rfl rfl rfl (by decide) (by decide)

/-- Claim C2: whenever verify fails, settle returns `success := false`
with `errorReason` equal to verify's `invalidReason` and `transaction`
equal to the empty string, and the submission flag is `false`: no
facilitator signing and no execute call happened, for every possible
ledger outcome. -/
theorem settle_propagates_verify_failure_without_submission
    (signerAccountId : String) (payload : PaymentPayloadM)
    (req : PaymentRequirementsM) (outcome : SubmissionOutcome)
    (hinv : (verify signerAccountId payload req).isValid = false) :
    settle signerAccountId payload req outcome =
      ({ success := false,
         errorReason := (verify signerAccountId payload req).invalidReason,
         payer := none, transaction := "", network := payload.network }, false) := by
  simp [settle, hinv]

/-- Witness: settling a concrete payload that fails verification. -/
theorem settle_propagates_verify_failure_witness :
    settle "0.0.99"
      { scheme := "exact", network := "hedera-testnet", x402Version := 1,
        transaction := some (.transfer
          { transactionId := some { accountId := some "0.0.7" },
            hbarTransfers := [], tokenTransfers := [] }) }
      { scheme := "exact", network := "hedera-testnet", payTo := "0.0.6",
        asset := "hbar", maxAmountRequired := "50", feePayer := some "0.0.7" }
      (.receipt 0 "0.0.7@1700000000.000000001" true) =
      ({ success := false,
         errorReason := some "invalid_exact_hedera_payload_transaction_signature",
         payer := none, transaction := "", network := "hedera-testnet" }, false) :=
  settle_propagates_verify_failure_without_submission "0.0.99" _ _ _ (by rfl)



/-- Claim C4 (amended): for an unsupported scheme the dispatcher-level
verify and settle return a uniform `invalid_scheme` failure response,
without throwing, whenever the network is not an EVM network, or the
payload does carry an EVM authorization object; but on an EVM network
with a payload lacking that object, the fallback's payer read
(`.authorization.from`) throws a TypeError past both entry points, and
for scheme `exact` with a network outside the three family tables,
`getNetworkFamily`'s `Unsupported network` error likewise propagates as
an exception instead of a returned failure response. -/
theorem dispatcher_invalid_scheme_returns_but_unknown_network_throws
    (evmVerify svmVerify : PaymentPayloadM → PaymentRequirementsM → VerifyResponseM)
    (evmSettle svmSettle : PaymentPayloadM → PaymentRequirementsM → SettleResponseM)
    (hederaSignerAccountId : String) (payload : PaymentPayloadM)
    (req : PaymentRequirementsM) (authorizationFrom : Option String)
    (outcome : SubmissionOutcome) :
    (req.scheme ≠ "exact" → req.network ∉ SupportedEVMNetworks →
      dispatcherVerify evmVerify svmVerify hederaSignerAccountId payload req
          authorizationFrom =
        .ok { isValid := false, invalidReason := some "invalid_scheme",
              payer := some "" } ∧
      dispatcherSettle evmSettle svmSettle hederaSignerAccountId payload req
          authorizationFrom outcome =
        .ok { success := false, errorReason := some "invalid_scheme",
              transaction := "", network := req.network, payer := some "" }) ∧
    (req.scheme ≠ "exact" → req.network ∈ SupportedEVMNetworks →
      ∀ s, authorizationFrom = some s →
      dispatcherVerify evmVerify svmVerify hederaSignerAccountId payload req
          authorizationFrom =
        .ok { isValid := false, invalidReason := some "invalid_scheme",
              payer := some s } ∧
      dispatcherSettle evmSettle svmSettle hederaSignerAccountId payload req
          authorizationFrom outcome =
        .ok { success := false, errorReason := some "invalid_scheme",
              transaction := "", network := req.network, payer := some s }) ∧
    (req.scheme ≠ "exact" → req.network ∈ SupportedEVMNetworks →
      authorizationFrom = none →
      dispatcherVerify evmVerify svmVerify hederaSignerAccountId payload req
          authorizationFrom =
        .error "TypeError: Cannot read properties of undefined (reading 'from')" ∧
      dispatcherSettle evmSettle svmSettle hederaSignerAccountId payload req
          authorizationFrom outcome =
        .error "TypeError: Cannot read properties of undefined (reading 'from')") ∧
    (req.scheme = "exact" →
      req.network ∉ SupportedEVMNetworks →
      req.network ∉ SupportedSVMNetworks →
      req.network ∉ SupportedHederaNetworks →
      dispatcherVerify evmVerify svmVerify hederaSignerAccountId payload req
          authorizationFrom =
        .error ("Unsupported network: " ++ req.network) ∧
      dispatcherSettle evmSettle svmSettle hederaSignerAccountId payload req
          authorizationFrom outcome =
        .error ("Unsupported network: " ++ req.network)) := by
  refine ⟨?_, ?_, ?_, ?_⟩
  · intro h hn
    constructor <;>
      simp [dispatcherVerify, dispatcherSettle, evmFallbackPayer, h, hn]
  · intro h hn s ha
    constructor <;>
      simp [dispatcherVerify, dispatcherSettle, evmFallbackPayer, h, hn, ha]
  · intro h hn ha
    constructor <;>
      simp [dispatcherVerify, dispatcherSettle, evmFallbackPayer, h, hn, ha]
  · intro h h1 h2 h3
    constructor <;>
      simp [dispatcherVerify, dispatcherSettle, getNetworkFamily, h, h1, h2, h3]

/-- Witness: the dispatcher on a concrete unsupported scheme over a
non-EVM network, with a Hedera payload carrying no authorization
object. -/
theorem dispatcher_invalid_scheme_witness :
    dispatcherVerify (fun _ _ => { isValid := true, invalidReason := none, payer := none })
      (fun _ _ => { isValid := true, invalidReason := none, payer := none }) "0.0.2"
      { scheme := "permit", network := "hedera-testnet", x402Version := 1, transaction := none }
      { scheme := "permit", network := "hedera-testnet", payTo := "0.0.6",
        asset := "hbar", maxAmountRequired := "50", feePayer := some "0.0.2" } none =
      .ok { isValid := false, invalidReason := some "invalid_scheme", payer := some "" } :=
  ((dispatcher_invalid_scheme_returns_but_unknown_network_throws _ _
    (fun _ _ =>
      { success := true, errorReason := none, payer := none,
        transaction := "", network := "" })
    (fun _ _ =>
      { success := true, errorReason := none, payer := none,
        transaction := "", network := "" })
    "0.0.2" _ _ none (.receipt 0 "" true)).1 (by decide) (by decide)).1

/-- Counterexample to claim C4 as stated: at scheme `exact` and the
unclassifiable network `acme-chain`, both dispatcher entry points
propagate the thrown `Unsupported network` error instead of returning a
failure response carrying `invalid_scheme`. -/
theorem dispatcher_unknown_network_throws_counterexample :
    dispatcherVerify (fun _ _ => { isValid := true, invalidReason := none, payer := none })
      (fun _ _ => { isValid := true, invalidReason := none, payer := none }) "0.0.2"
      { scheme := "exact", network := "acme-chain", x402Version := 1, transaction := none }
      { scheme := "exact", network := "acme-chain", payTo := "0.0.6",
        asset := "hbar", maxAmountRequired := "50", feePayer := some "0.0.2" } none =
      .error "Unsupported network: acme-chain" ∧
    dispatcherSettle
      (fun _ _ =>
        { success := true, errorReason := none, payer := none,
          transaction := "", network := "" })
      (fun _ _ =>
        { success := true, errorReason := none, payer := none,
          transaction := "", network := "" }) "0.0.2"
      { scheme := "exact", network := "acme-chain", x402Version := 1, transaction := none }
      { scheme := "exact", network := "acme-chain", payTo := "0.0.6",
        asset := "hbar", maxAmountRequired := "50", feePayer := some "0.0.2" } none
      (.receipt 0 "" true) =
      .error "Unsupported network: acme-chain" :=
  ⟨rfl, rfl⟩



/-- Counterexample to claim C5 as stated: a valid payload whose receipt
arrives only after 60000 ms — well past the claimed 30-second bound —
still settles with `success := true` and no `confirmation_timeout`
reason, because the settlement path awaits the receipt without any
timeout. -/
theorem settle_receipt_wait_unbounded_counterexample :
    (settle "0.0.2"
      { scheme := "exact", network := "hedera-testnet", x402Version := 1,
        transaction := some (.transfer
          { transactionId := some { accountId := some "0.0.2" },
            hbarTransfers := [("0.0.5", some (-50)), ("0.0.6", some 50)],
            tokenTransfers := [] }) }
      { scheme := "exact", network := "hedera-testnet", payTo := "0.0.6",
        asset := "hbar", maxAmountRequired := "50", feePayer := some "0.0.2" }
      (.receipt 60000 "0.0.2@1700000000.000000001" true)).1 =
      { success := true, errorReason := none, payer := some "0.0.2",
        transaction := "0.0.2@1700000000.000000001", network := "hedera-testnet" } ∧
    (settle "0.0.2"
      { scheme := "exact", network := "hedera-testnet", x402Version := 1,
        transaction := some (.transfer
          { transactionId := some { accountId := some "0.0.2" },
            hbarTransfers := [("0.0.5", some (-50)), ("0.0.6", some 50)],
            tokenTransfers := [] }) }
      { scheme := "exact", network := "hedera-testnet", payTo := "0.0.6",
        asset := "hbar", maxAmountRequired := "50", feePayer := some "0.0.2" }
      (.receipt 60000 "0.0.2@1700000000.000000001" true)).1.errorReason ≠
      some "confirmation_timeout" :=
  ⟨rfl, by decide⟩

/-- Claim C5 (amended): settle reports
`settle_exact_hedera_transaction_confirmation_timeout` with an empty
`transaction` only when the SDK submission itself rejects with a
message containing `timeout`/`TIMEOUT`; the receipt wait is unbounded —
`executeTransaction`'s result never depends on how long the receipt
took — while the never-called `waitForTransactionWithTimeout` helper
would have rejected any receipt at or past its 30000 ms timeout. -/
theorem settle_timeout_reason_and_unbounded_wait
    (signerAccountId : String) (payload : PaymentPayloadM)
    (req : PaymentRequirementsM) (msg : String)
    (hval : (verify signerAccountId payload req).isValid = true)
    (hni : includesJS msg "INSUFFICIENT_ACCOUNT_BALANCE" = false)
    (ht : includesJS msg "timeout" = true ∨ includesJS msg "TIMEOUT" = true) :
    settle signerAccountId payload req (.rejects msg) =
      ({ success := false,
         errorReason := some "settle_exact_hedera_transaction_confirmation_timeout",
         payer := some signerAccountId, transaction := "",
         network := payload.network }, true) ∧
    (∀ afterMs txId st, executeTransaction (.receipt afterMs txId st) =
      executeTransaction (.receipt 0 txId st)) ∧
    (∀ afterMs txId st, 30000 ≤ afterMs →
      waitForTransactionWithTimeout (.receipt afterMs txId st) 30000 =
        .error "Transaction confirmation timeout") := by
  refine ⟨?_, ?_, ?_⟩
  · rcases ht with h | h <;> simp [settle, hval, executeTransaction, hni, h]
  · intro afterMs txId st; rfl
  · intro afterMs txId st h
    rw [waitForTransactionWithTimeout, if_neg (Nat.not_lt.mpr h)]

/-- Witness: a concrete submission rejecting with a timeout message. -/
theorem settle_timeout_reason_witness :
    settle "0.0.2"
      { scheme := "exact", network := "hedera-testnet", x402Version := 1,
        transaction := some (.transfer
          { transactionId := some { accountId := some "0.0.2" },
            hbarTransfers := [("0.0.5", some (-50)), ("0.0.6", some 50)],
            tokenTransfers := [] }) }
      { scheme := "exact", network := "hedera-testnet", payTo := "0.0.6",
        asset := "hbar", maxAmountRequired := "50", feePayer := some "0.0.2" }
      (.rejects "GrpcServiceError: 4 DEADLINE_EXCEEDED: timeout exceeded") =
      ({ success := false,
         errorReason := some "settle_exact_hedera_transaction_confirmation_timeout",
         payer := some "0.0.2", transaction := "",
         network := "hedera-testnet" }, true) :=
  (settle_timeout_reason_and_unbounded_wait "0.0.2" _ _
    "GrpcServiceError: 4 DEADLINE_EXCEEDED: timeout exceeded"
    (by rfl) (by decide) (Or.inl (by decide))).1

/-- Counterexample to claim C7 as stated: the fractional token amount
`1.5` does not cause a hard failure; the Builder silently truncates it
via `parseInt` and builds debit/credit legs carrying `-1`/`1`. -/
theorem builder_accepts_fractional_amount_counterexample :
    createTransferTransaction "0.0.3"
      { scheme := "exact", network := "hedera-testnet", payTo := "0.0.7",
        asset := "0.0.5", maxAmountRequired := "1.5", feePayer := some "0.0.9" } =
      .ok { transactionId := some { accountId := some "0.0.9" },
            hbarTransfers := [],
            tokenTransfers := [("0.0.5", "0.0.3", some (-1)), ("0.0.5", "0.0.7", some 1)] } :=
  rfl

/-- Claim C7 (amended): for asset transfers the Builder applies
JavaScript `parseInt` to `maxAmountRequired` without validation: the
debit and credit legs carry `-parseInt(amount)` and `parseInt(amount)`,
so a fractional string is silently truncated to its leading integer
part, a negative string is accepted as a negative amount, and a
non-numeric string yields a NaN amount — never a hard failure. -/
theorem builder_token_amount_uses_parseInt
    (clientAccountId fp : String) (req : PaymentRequirementsM)
    (hfp : req.feePayer = some fp) (hfpne : fp ≠ "")
    (hfpv : isValidEntityId fp = true)
    (hasset : isHbarAddress req.asset = false)
    (hassetv : isValidEntityId req.asset = true)
    (hpayto : isValidEntityId req.payTo = true) :
    createTransferTransaction clientAccountId req =
      .ok { transactionId := some { accountId := some fp },
            hbarTransfers := [],
            tokenTransfers :=
              [(req.asset, clientAccountId,
                (parseIntJS req.maxAmountRequired).map (fun n => -n)),
               (req.asset, req.payTo, parseIntJS req.maxAmountRequired)] } ∧
    parseIntJS "1.5" = some 1 ∧ parseIntJS "-7" = some (-7) ∧
    parseIntJS "abc" = none := by
  refine ⟨?_, rfl, rfl, rfl⟩
  simp [createTransferTransaction, createTokenTransferTransaction,
    hfp, hfpne, hfpv, hasset, hassetv, hpayto]

/-- Witness: the Builder on the concrete negative amount `-7`. -/
theorem builder_token_amount_uses_parseInt_witness :
    createTransferTransaction "0.0.3"
      { scheme := "exact", network := "hedera-testnet", payTo := "0.0.7",
        asset := "0.0.5", maxAmountRequired := "-7", feePayer := some "0.0.9" } =
      .ok { transactionId := some { accountId := some "0.0.9" },
            hbarTransfers := [],
            tokenTransfers := [("0.0.5", "0.0.3", some 7), ("0.0.5", "0.0.7", some (-7))] } :=
  ((builder_token_amount_uses_parseInt "0.0.3" "0.0.9"
    { scheme := "exact", network := "hedera-testnet", payTo := "0.0.7",
      asset := "0.0.5", maxAmountRequired := "-7", feePayer := some "0.0.9" }
    rfl (by decide) (by decide) (by decide) (by decide) (by decide)).1)

/-- Claim C9: when `requirements.extra.feePayer` is absent (or empty,
equally falsy), both `createAndSignPayment` and `createPaymentHeader`
fail with the hard fee-payer-required error, with zero signing
operations performed — no signature is produced and no transaction
(hence no defaulted fee payer) is ever built. -/
theorem builder_requires_fee_payer_before_signing
    (clientAccountId : String) (x402Version : Nat) (req : PaymentRequirementsM)
    (h : req.feePayer = none ∨ req.feePayer = some "") :
    createAndSignPayment clientAccountId x402Version req =
      (.error "feePayer is required in paymentRequirements.extra", 0) ∧
    ∀ enc, createPaymentHeader enc clientAccountId x402Version req =
      (.error "feePayer is required in paymentRequirements.extra", 0) := by
  have hctt : createTransferTransaction clientAccountId req =
      .error "feePayer is required in paymentRequirements.extra" := by
    rcases h with h | h <;> simp [createTransferTransaction, h]
  constructor
  · simp [createAndSignPayment, hctt]
  · intro enc
    simp [createPaymentHeader, createAndSignPayment, hctt]

/-- Witness: the Builder on concrete requirements lacking `feePayer`. -/
theorem builder_requires_fee_payer_witness :
    createAndSignPayment "0.0.3" 1
      { scheme := "exact", network := "hedera-testnet", payTo := "0.0.7",
        asset := "hbar", maxAmountRequired := "50", feePayer := none } =
      (.error "feePayer is required in paymentRequirements.extra", 0) :=
  (builder_requires_fee_payer_before_signing "0.0.3" 1 _ (Or.inl rfl)).1

/-- Claim C10: on successful settlement the response carries the
ledger's transaction identifier (non-empty whenever the ledger's
identifier is) in `transaction`, and `payer` is the facilitator
signer's own account — the transaction's fee-payer account of record —
derived from the signer for every payload and requirements, never from
client-supplied data. -/
theorem settle_success_reports_ledger_id_and_signer_payer
    (signerAccountId : String) (payload : PaymentPayloadM)
    (req : PaymentRequirementsM) (afterMs : Nat) (txId : String)
    (hval : (verify signerAccountId payload req).isValid = true)
    (hne : txId ≠ "") :
    (settle signerAccountId payload req (.receipt afterMs txId true)).1 =
      { success := true, errorReason := none, payer := some signerAccountId,
        transaction := txId, network := payload.network } ∧
    (settle signerAccountId payload req (.receipt afterMs txId true)).1.transaction ≠ "" := by
  have h1 : (settle signerAccountId payload req (.receipt afterMs txId true)).1 =
      { success := true, errorReason := none, payer := some signerAccountId,
        transaction := txId, network := payload.network } := by
    simp [settle, hval, executeTransaction]
  exact ⟨h1, by rw [h1]; exact hne⟩

/-- Witness: a concrete successful settlement. -/
theorem settle_success_reports_ledger_id_witness :
    (settle "0.0.2"
      { scheme := "exact", network := "hedera-testnet", x402Version := 1,
        transaction := some (.transfer
          { transactionId := some { accountId := some "0.0.2" },
            hbarTransfers := [("0.0.5", some (-50)), ("0.0.6", some 50)],
            tokenTransfers := [] }) }
      { scheme := "exact", network := "hedera-testnet", payTo := "0.0.6",
        asset := "hbar", maxAmountRequired := "50", feePayer := some "0.0.2" }
      (.receipt 3000 "0.0.2@1700000000.000000001" true)).1 =
      { success := true, errorReason := none, payer := some "0.0.2",
        transaction := "0.0.2@1700000000.000000001", network := "hedera-testnet" } :=
  (settle_success_reports_ledger_id_and_signer_payer "0.0.2" _ _ 3000
    "0.0.2@1700000000.000000001" (by rfl) (by decide)).1


end X402
